import Mathlib

/-!
Verification of the curve-descriptor / DER-serialization core of a Python
ECDSA library (`src/ecdsa/curves.py`).  The file embeds the data model and
the operations of that module shallowly: byte strings become `List Nat`,
Python exceptions become an `Except` error type, and the module's
collaborators (the ASN.1/DER primitive codec, the curve-math engine and the
byte/integer utilities), whose sources are not part of the given tree, are
modelled from the specification of their interface.
-/

set_option maxRecDepth 4000000
set_option maxHeartbeats 16000000

/-- Byte strings are lists of naturals (each entry a byte value). -/
abbrev Bytes := List Nat

/-- Minimal big-endian base-256 digit list; auxiliary, fuelled by the number
itself (the digit count never exceeds the number). -/
def minBytesAux : Nat → Nat → Bytes
  | 0, _ => []
  | fuel + 1, n => if n = 0 then [] else minBytesAux fuel (n / 256) ++ [n % 256]

/-- Minimal big-endian base-256 representation of a natural (empty for 0). -/
def minBytes (n : Nat) : Bytes := minBytesAux n n

/-- Number of base-16 digits, 0 for 0; auxiliary fuelled by the number. -/
def hexDigitsAux : Nat → Nat → Nat
  | 0, _ => 0
  | fuel + 1, n => if n = 0 then 0 else hexDigitsAux fuel (n / 16) + 1

/-- Number of base-16 digits of a natural (0 for 0). -/
def hexDigits (n : Nat) : Nat := hexDigitsAux n n

/-- Modelled from the spec: `util.orderlen` — the byte length needed to hold a
number, computed (as upstream does) from the length of its hex rendering,
`(1 + len("%x" % order)) // 2`; `"%x" % 0` is `"0"`, one digit. -/
def orderlen (order : Nat) : Nat := (1 + max 1 (hexDigits order)) / 2

/-- Big-endian base-256 rendering of `n` padded/truncated to exactly `L` bytes. -/
def beBytes : Nat → Nat → Bytes
  | 0, _ => []
  | L + 1, n => beBytes L (n / 256) ++ [n % 256]

/-- Modelled from the spec: `util.number_to_string num order` — big-endian
fixed-length conversion, the length being `orderlen order`. -/
def number_to_string (num order : Nat) : Bytes := beBytes (orderlen order) num

/-- Modelled from the spec: `util.string_to_number` — big-endian bytes to Nat. -/
def string_to_number (s : Bytes) : Nat := s.foldl (fun a b => a * 256 + b) 0

/-- The error kinds surfaced by the module: structural-parse errors
(`der.UnexpectedDER`, the "MalformedEncoding" class of the spec), registry /
field-type failures (`UnknownCurveError`) and point-decoding failures
(`MalformedPointError` from the curve-math engine). -/
inductive DerError where
  | unexpectedDER (msg : String)
  | unknownCurve (msg : String)
  | malformedPoint (msg : String)
deriving DecidableEq, Repr

instance {ε α : Type} [DecidableEq ε] [DecidableEq α] : DecidableEq (Except ε α) :=
  fun a b =>
    match a, b with
    | .ok x, .ok y =>
      if h : x = y then .isTrue (by rw [h])
      else .isFalse (fun hc => by cases hc; exact h rfl)
    | .ok _, .error _ => .isFalse (fun hc => Except.noConfusion hc)
    | .error _, .ok _ => .isFalse (fun hc => Except.noConfusion hc)
    | .error x, .error y =>
      if h : x = y then .isTrue (by rw [h])
      else .isFalse (fun hc => by cases hc; exact h rfl)

/-- DER length field for a content length `n` (short or long form). -/
def lenEncode (n : Nat) : Bytes :=
  if n < 128 then [n] else (128 + (minBytes n).length) :: minBytes n

/-- Modelled from the spec: `der.encode_integer` for a non-negative integer
(tag 0x02, minimal big-endian content with a leading zero byte when the high
bit would be set). -/
def encode_integer (n : Nat) : Bytes :=
  let body := if minBytes n = [] then [0] else minBytes n
  let body := if 128 ≤ body.headI then 0 :: body else body
  2 :: lenEncode body.length ++ body

/-- Modelled from the spec: `der.encode_octet_string` (tag 0x04). -/
def encode_octet_string (s : Bytes) : Bytes := 4 :: lenEncode s.length ++ s

/-- Modelled from the spec: `der.encode_sequence` (tag 0x30) over a list of
already-encoded elements. -/
def encode_sequence (parts : List Bytes) : Bytes :=
  let body := parts.foldr (· ++ ·) []
  48 :: lenEncode body.length ++ body

/-- Minimal base-128 digit list; auxiliary, fuelled by the number itself. -/
def b128Aux : Nat → Nat → List Nat
  | 0, _ => []
  | fuel + 1, n => if n = 0 then [] else b128Aux fuel (n / 128) ++ [n % 128]

/-- Set the continuation (high) bit on all digits except the last. -/
def markHigh : List Nat → List Nat
  | [] => []
  | [d] => [d]
  | d :: ds => (d + 128) :: markHigh ds

/-- Modelled from the spec: `der.encode_number` — one OID subidentifier in
base-128 with continuation bits. -/
def encode_number (n : Nat) : Bytes :=
  if n = 0 then [0] else markHigh (b128Aux n n)

/-- Modelled from the spec: `der.encode_oid` — tag 0x06, first two components
packed as `40*first + second`, remaining components base-128 encoded.  (The
upstream encoder asserts a well-formed oid of at least two components; the
degenerate cases are never produced by this module.) -/
def encode_oid (oid : List Nat) : Bytes :=
  match oid with
  | f :: s :: rest =>
    let body := encode_number (40 * f + s) ++ (rest.map encode_number).foldr (· ++ ·) []
    6 :: lenEncode body.length ++ body
  | _ => []

/-- Modelled from the spec: `der.read_length` — parse a DER length field,
returning the content length and the number of bytes the field occupies;
rejects zero-length and non-minimal long forms. -/
def read_length (s : Bytes) : Except DerError (Nat × Nat) :=
  match s with
  | [] => .error (.unexpectedDER "Empty string can't encode a valid length value")
  | num :: tail =>
    if num / 128 % 2 = 0 then .ok (num % 128, 1)
    else
      let llen := num % 128
      if llen = 0 then .error (.unexpectedDER "Invalid length encoding, length of length is 0")
      else if tail.length < llen then
        .error (.unexpectedDER "Length of length longer than provided buffer")
      else
        match tail with
        | [] => .error (.unexpectedDER "Length of length longer than provided buffer")
        | msb :: _ =>
          if msb = 0 ∨ (llen = 1 ∧ msb < 128) then
            .error (.unexpectedDER "Not minimal encoding of length")
          else .ok (string_to_number (tail.take llen), 1 + llen)

/-- Modelled from the spec: `der.remove_sequence` — strip tag 0x30 and the
length field, return the sequence body and the unconsumed remainder. -/
def remove_sequence (s : Bytes) : Except DerError (Bytes × Bytes) :=
  match s with
  | [] => .error (.unexpectedDER "Empty string does not encode a sequence")
  | tag :: tail =>
    if tag ≠ 48 then .error (.unexpectedDER "wanted type 'sequence'")
    else
      match read_length tail with
      | .error e => .error e
      | .ok (length, llen) =>
        if s.length - 1 - llen < length then
          .error (.unexpectedDER "Length longer than the provided buffer")
        else .ok ((s.drop (1 + llen)).take length, s.drop (1 + llen + length))

/-- Modelled from the spec: `der.remove_integer` — strip tag 0x02, reject
empty, negative and non-minimally padded contents, return the value and the
unconsumed remainder. -/
def remove_integer (s : Bytes) : Except DerError (Nat × Bytes) :=
  match s with
  | [] => .error (.unexpectedDER "Empty string is an invalid encoding of an integer")
  | tag :: tail =>
    if tag ≠ 2 then .error (.unexpectedDER "wanted type 'integer'")
    else
      match read_length tail with
      | .error e => .error e
      | .ok (length, llen) =>
        if s.length - 1 - llen < length then
          .error (.unexpectedDER "Length longer than provided buffer")
        else if length = 0 then .error (.unexpectedDER "0-byte long encoding of integer")
        else
          match (s.drop (1 + llen)).take length with
          | [] => .error (.unexpectedDER "0-byte long encoding of integer")
          | b0 :: brest =>
            if 128 ≤ b0 then .error (.unexpectedDER "Negative integers are not supported")
            else if b0 = 0 ∧ brest.headI < 128 ∧ brest ≠ [] then
              .error (.unexpectedDER "Invalid encoding of integer, unnecessary zero padding bytes")
            else .ok (string_to_number (b0 :: brest), s.drop (1 + llen + length))

/-- Modelled from the spec: `der.remove_octet_string` — strip tag 0x04, return
the content bytes and the unconsumed remainder. -/
def remove_octet_string (s : Bytes) : Except DerError (Bytes × Bytes) :=
  match s with
  | [] => .error (.unexpectedDER "Empty string does not encode an octet string")
  | tag :: tail =>
    if tag ≠ 4 then .error (.unexpectedDER "wanted type 'octetstring'")
    else
      match read_length tail with
      | .error e => .error e
      | .ok (length, llen) =>
        if s.length - 1 - llen < length then
          .error (.unexpectedDER "Length longer than the provided buffer")
        else .ok ((s.drop (1 + llen)).take length, s.drop (1 + llen + length))

/-- One base-128 subidentifier: auxiliary reader, fuelled by the buffer length. -/
def read_numberAux : Nat → Bytes → Nat → Nat → Except DerError (Nat × Nat)
  | _, [], _, _ => .error (.unexpectedDER "ran out of length bytes")
  | 0, _ :: _, _, _ => .error (.unexpectedDER "ran out of length bytes")
  | fuel + 1, d :: tail, acc, consumed =>
    if d / 128 % 2 = 1 then read_numberAux fuel tail (acc * 128 + d % 128) (consumed + 1)
    else .ok (acc * 128 + d % 128, consumed + 1)

/-- Modelled from the spec: `der.read_number` — one OID subidentifier in
base-128, rejecting a non-minimal leading 0x80 byte. -/
def read_number (s : Bytes) : Except DerError (Nat × Nat) :=
  match s with
  | [] => .error (.unexpectedDER "ran out of length bytes")
  | d :: _ =>
    if d = 128 then .error (.unexpectedDER "Non minimal encoding of OID subidentifier")
    else read_numberAux s.length s 0 0

/-- Subidentifier loop of `remove_object`; fuelled by the body length (each
subidentifier consumes at least one byte). -/
def parseSubIdsAux : Nat → Bytes → List Nat → Except DerError (List Nat)
  | _, [], acc => .ok acc.reverse
  | 0, _ :: _, _ => .error (.unexpectedDER "ran out of length bytes")
  | fuel + 1, body, acc =>
    match read_number body with
    | .error e => .error e
    | .ok (n, ll) => parseSubIdsAux fuel (body.drop ll) (n :: acc)

/-- Modelled from the spec: `der.remove_object` — strip tag 0x06, decode the
subidentifiers, unpack the first body number into the first two OID
components, return the OID component list and the unconsumed remainder. -/
def remove_object (s : Bytes) : Except DerError (List Nat × Bytes) :=
  match s with
  | [] => .error (.unexpectedDER "Empty string does not encode an object identifier")
  | tag :: tail =>
    if tag ≠ 6 then .error (.unexpectedDER "wanted type 'object'")
    else
      match read_length tail with
      | .error e => .error e
      | .ok (length, llen) =>
        let body := (s.drop (1 + llen)).take length
        let rest := s.drop (1 + llen + length)
        if body.length ≠ length then
          .error (.unexpectedDER "Length of object identifier longer than provided buffer")
        else if body = [] then .error (.unexpectedDER "Empty object identifier")
        else
          match parseSubIdsAux body.length body [] with
          | .error e => .error e
          | .ok [] => .error (.unexpectedDER "Empty object identifier")
          | .ok (n0 :: others) => .ok (n0 / 40 :: n0 % 40 :: others, rest)

/-- Modelled from the spec: `der.is_sequence` — nonempty and tagged 0x30. -/
def is_sequence (s : Bytes) : Bool :=
  match s with
  | [] => false
  | tag :: _ => tag = 48

/-- Binary modular exponentiation, fuelled by the exponent itself (the number
of halving steps never exceeds the exponent). -/
def powModAux : Nat → Nat → Nat → Nat → Nat → Nat
  | 0, _, _, acc, _ => acc
  | fuel + 1, b, e, acc, p =>
    if e = 0 then acc
    else powModAux fuel (b * b % p) (e / 2) (if e % 2 = 1 then acc * b % p else acc) p

/-- `b ^ e mod p`. -/
def powMod (b e p : Nat) : Nat := powModAux e (b % p) e (1 % p) p

/-- Strip the factors of two: `factorTwos n = (q, s)` with `n = q * 2 ^ s`,
`q` odd (for `n > 0`); auxiliary fuelled by the number. -/
def factorTwosAux : Nat → Nat → Nat × Nat
  | 0, n => (n, 0)
  | fuel + 1, n =>
    if n % 2 = 0 ∧ n ≠ 0 then
      let qs := factorTwosAux fuel (n / 2)
      (qs.1, qs.2 + 1)
    else (n, 0)

/-- `factorTwos n = (odd part, 2-adic valuation)`. -/
def factorTwos (n : Nat) : Nat × Nat := factorTwosAux n n

/-- Search for a quadratic non-residue modulo `p`, starting at `z`. -/
def findNonResidueAux : Nat → Nat → Nat → Option Nat
  | 0, _, _ => none
  | fuel + 1, z, p =>
    if powMod z ((p - 1) / 2) p = p - 1 then some z
    else findNonResidueAux fuel (z + 1) p

/-- Least `i ≥ i0` with `t ^ (2 ^ i) ≡ 1`, seeded with `t2 = t ^ (2 ^ i0)`. -/
def tsOrdAux : Nat → Nat → Nat → Nat → Option Nat
  | 0, _, _, _ => none
  | fuel + 1, t2, p, i => if t2 = 1 then some i else tsOrdAux fuel (t2 * t2 % p) p (i + 1)

/-- Main Tonelli–Shanks loop; the working exponent `M` strictly decreases, so
fuel `s + 1` suffices. -/
def tsLoopAux : Nat → Nat → Nat → Nat → Nat → Nat → Option Nat
  | 0, _, _, _, _, _ => none
  | fuel + 1, p, M, c, t, R =>
    if t = 1 then some R
    else
      match tsOrdAux M (t * t % p) p 1 with
      | none => none
      | some i =>
        if M ≤ i then none
        else
          let b := powMod c (2 ^ (M - i - 1)) p
          tsLoopAux fuel p i (b * b % p) (t * (b * b % p) % p) (R * b % p)

/-- Modelled from the spec: the curve-math engine's modular square root
(`numbertheory.square_root_mod_prime`), used when decoding a compressed point:
`p ≡ 3 (mod 4)` fast path, Tonelli–Shanks otherwise; the candidate is checked,
so the result is `some r` only when `r * r ≡ a (mod p)`. -/
def sqrtMod (a p : Nat) : Option Nat :=
  let a := a % p
  if a = 0 then some 0
  else if p % 4 = 3 then
    let c := powMod a ((p + 1) / 4) p
    if c * c % p = a then some c else none
  else
    let qs := factorTwos (p - 1)
    match findNonResidueAux p 2 p with
    | none => none
    | some z =>
      match tsLoopAux (qs.2 + 1) p qs.2 (powMod z qs.1 p) (powMod a qs.1 p)
          (powMod a ((qs.1 + 1) / 2) p) with
      | none => none
      | some r => if r * r % p = a then some r else none

/-- Modelled from the spec: the curve-math engine's prime-field curve
(`ellipticcurve.CurveFp`): prime `p`, coefficients `a`, `b`, and an optional
cofactor. -/
structure CurveFp where
  p : Nat
  a : Nat
  b : Nat
  cofactor : Option Nat
deriving DecidableEq, Repr

/-- Modelled from the spec: equality of curve-math objects — same prime and
same coefficients modulo the prime; the cofactor is not compared. -/
def curveFpEq (c d : CurveFp) : Bool :=
  c.p = d.p ∧ c.a % c.p = d.a % c.p ∧ c.b % c.p = d.b % c.p

/-- Modelled from the spec: the curve-math engine's point
(`ellipticcurve.PointJacobi` as used by this module): a point on a curve with
a declared order and a generator mark. -/
structure PointJ where
  curve : CurveFp
  x : Nat
  y : Nat
  order : Nat
  generator : Bool
deriving DecidableEq, Repr

/-- Modelled from the spec: equality of points — only points on equal curves
can be equal, coordinates are compared modulo the prime; the declared order
and the generator mark are not compared. -/
def pointEq (u v : PointJ) : Bool :=
  curveFpEq u.curve v.curve ∧ u.x % u.curve.p = v.x % v.curve.p ∧
    u.y % u.curve.p = v.y % v.curve.p

/-- Modelled from the spec: point serialization (`AbstractPoint.to_bytes`) —
`uncompressed` is `04 ‖ X ‖ Y`, `hybrid` is `06/07 ‖ X ‖ Y` and `compressed`
is `02/03 ‖ X` with the low prefix bit carrying the parity of `y`; `X`, `Y`
are `orderlen p`-sized big-endian strings. -/
def PointJ.to_bytes (pt : PointJ) (enc : String) : Bytes :=
  let xs := number_to_string pt.x pt.curve.p
  let ys := number_to_string pt.y pt.curve.p
  if enc = "uncompressed" then 4 :: (xs ++ ys)
  else if enc = "hybrid" then (if pt.y % 2 = 1 then 7 else 6) :: (xs ++ ys)
  else if enc = "compressed" then (if pt.y % 2 = 1 then 3 else 2) :: xs
  else xs ++ ys

/-- Modelled from the spec: point deserialization (`PointJacobi.from_bytes` as
called by the decoder, with accepted encodings {uncompressed, compressed,
hybrid}, encoding validation on, a declared order and the generator mark): the
buffer length and prefix byte select the encoding; hybrid checks the parity
consistency of the prefix; compressed recovers `y` as the modular square root
of `x³ + a·x + b` with the parity selected by the prefix. -/
def pointFromBytes (curve : CurveFp) (data : Bytes) (order : Nat) :
    Except DerError PointJ :=
  let rawLen := 2 * orderlen curve.p
  let hd := data.headI
  if data.length = rawLen + 1 ∧ (hd = 6 ∨ hd = 7) then
    let x := string_to_number ((data.drop 1).take (rawLen / 2))
    let y := string_to_number (data.drop (1 + rawLen / 2))
    if (y % 2 = 1 ∧ hd ≠ 7) ∨ (y % 2 = 0 ∧ hd ≠ 6) then
      .error (.malformedPoint "Inconsistent hybrid point encoding")
    else .ok ⟨curve, x, y, order, true⟩
  else if data.length = rawLen + 1 ∧ hd = 4 then
    let x := string_to_number ((data.drop 1).take (rawLen / 2))
    let y := string_to_number (data.drop (1 + rawLen / 2))
    .ok ⟨curve, x, y, order, true⟩
  else if data.length = rawLen / 2 + 1 ∧ (hd = 2 ∨ hd = 3) then
    let x := string_to_number (data.drop 1)
    let alpha := (powMod x 3 curve.p + curve.a * x + curve.b) % curve.p
    match sqrtMod alpha curve.p with
    | none => .error (.malformedPoint "Encoding does not correspond to a point on the curve")
    | some beta =>
      let y := if (hd = 2 ∧ beta % 2 = 1) ∨ (hd = 3 ∧ beta % 2 = 0) then curve.p - beta else beta
      .ok ⟨curve, x, y, order, true⟩
  else .error (.malformedPoint "Invalid point encoding")

/-- The Curve descriptor of `curves.py`: name, optional OpenSSL alias, the
curve-math object, the generator point, the optional OID, and the derived
fields the constructor computes eagerly.  `encoded_oid` is an attribute that
the constructor sets only conditionally; its presence is modelled with
`Option`. -/
structure Curve where
  name : String
  openssl_name : Option String
  curve : CurveFp
  generator : PointJ
  order : Nat
  baselen : Nat
  verifying_key_length : Nat
  signature_length : Nat
  oid : Option (List Nat)
  encoded_oid : Option Bytes
deriving DecidableEq, Repr

/-- Python truthiness of the `oid` argument: `None` and the empty tuple are
falsy, a nonempty tuple is truthy. -/
def oidTruthy : Option (List Nat) → Bool
  | none => false
  | some l => ¬ l = []

/-- `Curve.__init__`: store the inputs, compute `order` from the generator,
the derived lengths, and — only when `oid` is truthy — `encoded_oid`. -/
def mkCurve (name : String) (curve : CurveFp) (generator : PointJ)
    (oid : Option (List Nat)) (openssl_name : Option String) : Curve :=
  { name := name
    openssl_name := openssl_name
    curve := curve
    generator := generator
    order := generator.order
    baselen := orderlen generator.order
    verifying_key_length := 2 * orderlen curve.p
    signature_length := 2 * orderlen generator.order
    oid := oid
    encoded_oid := if oidTruthy oid then some (encode_oid (oid.getD [])) else none }

/-- `Curve.__eq__`: equality of Curve values is equality of the pair
`(curve_math, generator)`; names and OIDs are not compared. -/
def curveValEq (c d : Curve) : Bool :=
  curveFpEq c.curve d.curve ∧ pointEq c.generator d.generator

/-- The prime-field field-type OID (`1.2.840.10045.1.1`). -/
def PRIME_FIELD_OID : List Nat := [1, 2, 840, 10045, 1, 1]

/-- The characteristic-two field-type OID (`1.2.840.10045.1.2`). -/
def CHARACTERISTIC_TWO_FIELD_OID : List Nat := [1, 2, 840, 10045, 1, 2]

/-- `Curve.to_der`: `named_curve` form emits the OID alone (failing without a
truthy OID); any other requested encoding falls through to the explicit
`ECParameters` SEQUENCE of version 1, fieldID, curve coefficients, generator
bytes, order and — only for a truthy cofactor — the cofactor INTEGER.
`encoding = none` models the Python default argument. -/
def Curve.to_der (c : Curve) (encoding : Option String) (point_encoding : String) :
    Except DerError Bytes :=
  let enc := encoding.getD (if oidTruthy c.oid then "named_curve" else "explicit")
  if enc = "named_curve" then
    if ¬ oidTruthy c.oid then
      .error (.unknownCurve
        "Can't encode curve using named_curve encoding without associated curve OID")
    else .ok (encode_oid (c.oid.getD []))
  else
    let curve_p := c.curve.p
    let version := encode_integer 1
    let field_id := encode_sequence [encode_oid PRIME_FIELD_OID, encode_integer curve_p]
    let curveSeq := encode_sequence
      [encode_octet_string (number_to_string (c.curve.a % curve_p) curve_p),
       encode_octet_string (number_to_string (c.curve.b % curve_p) curve_p)]
    let base := encode_octet_string (c.generator.to_bytes point_encoding)
    let orderEnc := encode_integer c.generator.order
    let cofactorPart : List Bytes :=
      match c.curve.cofactor with
      | some h => if h ≠ 0 then [encode_integer h] else []
      | none => []
    .ok (encode_sequence ([version, field_id, curveSeq, base, orderEnc] ++ cofactorPart))

/-- Modelled from the spec: the registry of standard curves is built from the
curve-math constants of the library's `ecdsa` module (not part of the given
tree); the parameters below are the published standard domain parameters of
the named curves. -/
def curve_192 : CurveFp := ⟨6277101735386680763835789423207666416083908700390324961279, 6277101735386680763835789423207666416083908700390324961276, 2455155546008943817740293915197451784769108058161191238065, some 1⟩

/-- Base point of `curve_192`. -/
def generator_192 : PointJ := ⟨curve_192, 602046282375688656758213480587526111916698976636884684818, 174050332293622031404857552280219410364023488927386650641, 6277101735386680763835789423176059013767194773182842284081, true⟩

/-- Registry singleton `NIST192p`. -/
def NIST192p : Curve := mkCurve "NIST192p" curve_192 generator_192 (some [1, 2, 840, 10045, 3, 1, 1]) (some "prime192v1")

def curve_224 : CurveFp := ⟨26959946667150639794667015087019630673557916260026308143510066298881, 26959946667150639794667015087019630673557916260026308143510066298878, 18958286285566608000408668544493926415504680968679321075787234672564, some 1⟩

/-- Base point of `curve_224`. -/
def generator_224 : PointJ := ⟨curve_224, 19277929113566293071110308034699488026831934219452440156649784352033, 19926808758034470970197974370888749184205991990603949537637343198772, 26959946667150639794667015087019625940457807714424391721682722368061, true⟩

/-- Registry singleton `NIST224p`. -/
def NIST224p : Curve := mkCurve "NIST224p" curve_224 generator_224 (some [1, 3, 132, 0, 33]) (some "secp224r1")

def curve_256 : CurveFp := ⟨115792089210356248762697446949407573530086143415290314195533631308867097853951, 115792089210356248762697446949407573530086143415290314195533631308867097853948, 41058363725152142129326129780047268409114441015993725554835256314039467401291, some 1⟩

/-- Base point of `curve_256`. -/
def generator_256 : PointJ := ⟨curve_256, 48439561293906451759052585252797914202762949526041747995844080717082404635286, 36134250956749795798585127919587881956611106672985015071877198253568414405109, 115792089210356248762697446949407573529996955224135760342422259061068512044369, true⟩

/-- Registry singleton `NIST256p`. -/
def NIST256p : Curve := mkCurve "NIST256p" curve_256 generator_256 (some [1, 2, 840, 10045, 3, 1, 7]) (some "prime256v1")

def curve_384 : CurveFp := ⟨39402006196394479212279040100143613805079739270465446667948293404245721771496870329047266088258938001861606973112319, 39402006196394479212279040100143613805079739270465446667948293404245721771496870329047266088258938001861606973112316, 27580193559959705877849011840389048093056905856361568521428707301988689241309860865136260764883745107765439761230575, some 1⟩

/-- Base point of `curve_384`. -/
def generator_384 : PointJ := ⟨curve_384, 26247035095799689268623156744566981891852923491109213387815615900925518854738050089022388053975719786650872476732087, 8325710961489029985546751289520108179287853048861315594709205902480503199884419224438643760392947333078086511627871, 39402006196394479212279040100143613805079739270465446667946905279627659399113263569398956308152294913554433653942643, true⟩

/-- Registry singleton `NIST384p`. -/
def NIST384p : Curve := mkCurve "NIST384p" curve_384 generator_384 (some [1, 3, 132, 0, 34]) (some "secp384r1")

def curve_521 : CurveFp := ⟨6864797660130609714981900799081393217269435300143305409394463459185543183397656052122559640661454554977296311391480858037121987999716643812574028291115057151, 6864797660130609714981900799081393217269435300143305409394463459185543183397656052122559640661454554977296311391480858037121987999716643812574028291115057148, 1093849038073734274511112390766805569936207598951683748994586394495953116150735016013708737573759623248592132296706313309438452531591012912142327488478985984, some 1⟩

/-- Base point of `curve_521`. -/
def generator_521 : PointJ := ⟨curve_521, 2661740802050217063228768716723360960729859168756973147706671368418802944996427808491545080627771902352094241225065558662157113545570916814161637315895999846, 3757180025770020463545507224491183603594455134769762486694567779615544477440556316691234405012945539562144444537289428522585666729196580810124344277578376784, 6864797660130609714981900799081393217269435300143305409394463459185543183397655394245057746333217197532963996371363321113864768612440380340372808892707005449, true⟩

/-- Registry singleton `NIST521p`. -/
def NIST521p : Curve := mkCurve "NIST521p" curve_521 generator_521 (some [1, 3, 132, 0, 35]) (some "secp521r1")

def curve_secp256k1 : CurveFp := ⟨115792089237316195423570985008687907853269984665640564039457584007908834671663, 0, 7, some 1⟩

/-- Base point of `curve_secp256k1`. -/
def generator_secp256k1 : PointJ := ⟨curve_secp256k1, 55066263022277343669578718895168534326250603453777594175500187360389116729240, 32670510020758816978083085130507043184471273380659243275938904335757337482424, 115792089237316195423570985008687907852837564279074904382605163141518161494337, true⟩

/-- Registry singleton `SECP256k1`. -/
def SECP256k1 : Curve := mkCurve "SECP256k1" curve_secp256k1 generator_secp256k1 (some [1, 3, 132, 0, 10]) (some "secp256k1")

def curve_brainpoolp160r1 : CurveFp := ⟨1332297598440044874827085558802491743757193798159, 297190522446607939568481567949428902921613329152, 173245649450172891208247283053495198538671808088, some 1⟩

/-- Base point of `curve_brainpoolp160r1`. -/
def generator_brainpoolp160r1 : PointJ := ⟨curve_brainpoolp160r1, 1089473557631435284577962539738532515920566082499, 127912481829969033206777085249718746721365418785, 1332297598440044874827085038830181364212942568457, true⟩

/-- Registry singleton `BRAINPOOLP160r1`. -/
def BRAINPOOLP160r1 : Curve := mkCurve "BRAINPOOLP160r1" curve_brainpoolp160r1 generator_brainpoolp160r1 (some [1, 3, 36, 3, 3, 2, 8, 1, 1, 1]) (some "brainpoolP160r1")

def curve_brainpoolp192r1 : CurveFp := ⟨4781668983906166242955001894344923773259119655253013193367, 2613009377683017747869391908421543348309181741502784219375, 1731160591135112004210203499537764623771657619977468323273, some 1⟩

/-- Base point of `curve_brainpoolp192r1`. -/
def generator_brainpoolp192r1 : PointJ := ⟨curve_brainpoolp192r1, 4723188856514392935399337699153522173525168621081341681622, 507884783101387741749746950209061101579755255809652136847, 4781668983906166242955001894269038308119863659119834868929, true⟩

/-- Registry singleton `BRAINPOOLP192r1`. -/
def BRAINPOOLP192r1 : Curve := mkCurve "BRAINPOOLP192r1" curve_brainpoolp192r1 generator_brainpoolp192r1 (some [1, 3, 36, 3, 3, 2, 8, 1, 1, 3]) (some "brainpoolP192r1")

def curve_brainpoolp224r1 : CurveFp := ⟨22721622932454352787552537995910928073340732145944992304435472941311, 11020725272625742361946480833014344015343456918668456061589001510723, 3949606626053374030787926457695139766118442946052311411513528958987, some 1⟩

/-- Base point of `curve_brainpoolp224r1`. -/
def generator_brainpoolp224r1 : PointJ := ⟨curve_brainpoolp224r1, 1428364927244201726431498207475486496993067267318520844137448783997, 9337555360448823227812410753177468631215558779020518084752618816205, 22721622932454352787552537995910923612567546342330757191396560966559, true⟩

/-- Registry singleton `BRAINPOOLP224r1`. -/
def BRAINPOOLP224r1 : Curve := mkCurve "BRAINPOOLP224r1" curve_brainpoolp224r1 generator_brainpoolp224r1 (some [1, 3, 36, 3, 3, 2, 8, 1, 1, 5]) (some "brainpoolP224r1")

def curve_brainpoolp256r1 : CurveFp := ⟨76884956397045344220809746629001649093037950200943055203735601445031516197751, 56698187605326110043627228396178346077120614539475214109386828188763884139993, 17577232497321838841075697789794520262950426058923084567046852300633325438902, some 1⟩

/-- Base point of `curve_brainpoolp256r1`. -/
def generator_brainpoolp256r1 : PointJ := ⟨curve_brainpoolp256r1, 63243729749562333355292243550312970334778175571054726587095381623627144114786, 38218615093753523893122277964030810387585405539772602581557831887485717997975, 76884956397045344220809746629001649092737531784414529538755519063063536359079, true⟩

/-- Registry singleton `BRAINPOOLP256r1`. -/
def BRAINPOOLP256r1 : Curve := mkCurve "BRAINPOOLP256r1" curve_brainpoolp256r1 generator_brainpoolp256r1 (some [1, 3, 36, 3, 3, 2, 8, 1, 1, 7]) (some "brainpoolP256r1")

def curve_brainpoolp320r1 : CurveFp := ⟨1763593322239166354161909842446019520889512772719515192772960415288640868802149818095501499903527, 524709318439392693105919717518043758943240164412117372990311331314771510648804065756354311491252, 684460840191207052139729091116995410883497412720006364295713596062999867796741135919289734394278, some 1⟩

/-- Base point of `curve_brainpoolp320r1`. -/
def generator_brainpoolp320r1 : PointJ := ⟨curve_brainpoolp320r1, 565203972584199378547773331021708157952136817703497461781479793049434111597020229546183313458705, 175146432689526447697480803229621572834859050903464782210773312572877763380340633688906597830369, 1763593322239166354161909842446019520889512772717686063760686124016784784845843468355685258203921, true⟩

/-- Registry singleton `BRAINPOOLP320r1`. -/
def BRAINPOOLP320r1 : Curve := mkCurve "BRAINPOOLP320r1" curve_brainpoolp320r1 generator_brainpoolp320r1 (some [1, 3, 36, 3, 3, 2, 8, 1, 1, 9]) (some "brainpoolP320r1")

def curve_brainpoolp384r1 : CurveFp := ⟨21659270770119316173069236842332604979796116387017648600081618503821089934025961822236561982844534088440708417973331, 19048979039598244295279281525021548448223459855185222892089532512446337024935426033638342846977861914875721218402342, 717131854892629093329172042053689661426642816397448020844407951239049616491589607702456460799758882466071646850065, some 1⟩

/-- Base point of `curve_brainpoolp384r1`. -/
def generator_brainpoolp384r1 : PointJ := ⟨curve_brainpoolp384r1, 4480579927441533893329522230328287337018133311029754539518372936441756157459087304048546502931308754738349656551198, 21354446258743982691371413536748675410974765754620216137225614281636810686961198361153695003859088327367976229294869, 21659270770119316173069236842332604979796116387017648600075645274821611501358515537962695117368903252229601718723941, true⟩

/-- Registry singleton `BRAINPOOLP384r1`. -/
def BRAINPOOLP384r1 : Curve := mkCurve "BRAINPOOLP384r1" curve_brainpoolp384r1 generator_brainpoolp384r1 (some [1, 3, 36, 3, 3, 2, 8, 1, 1, 11]) (some "brainpoolP384r1")

def curve_brainpoolp512r1 : CurveFp := ⟨8948962207650232551656602815159153422162609644098354511344597187200057010413552439917934304191956942765446530386427345937963894309923928536070534607816947, 6294860557973063227666421306476379324074715770622746227136910445450301914281276098027990968407983962691151853678563877834221834027439718238065725844264138, 3245789008328967059274849584342077916531909009637501918328323668736179176583263496463525128488282611559800773506973771797764811498834995234341530862286627, some 1⟩

/-- Base point of `curve_brainpoolp512r1`. -/
def generator_brainpoolp512r1 : PointJ := ⟨curve_brainpoolp512r1, 6792059140424575174435640431269195087843153390102521881468023012732047482579853077545647446272866794936371522410774532686582484617946013928874296844351522, 6592244555240112873324748381429610341312712940326266331327445066687010545415256461097707483288650216992613090185042957716318301180159234788504307628509330, 8948962207650232551656602815159153422162609644098354511344597187200057010413418528378981730643524959857451398370029280583094215613882043973354392115544169, true⟩

/-- Registry singleton `BRAINPOOLP512r1`. -/
def BRAINPOOLP512r1 : Curve := mkCurve "BRAINPOOLP512r1" curve_brainpoolp512r1 generator_brainpoolp512r1 (some [1, 3, 36, 3, 3, 2, 8, 1, 1, 13]) (some "brainpoolP512r1")

def curve_112r1 : CurveFp := ⟨4451685225093714772084598273548427, 4451685225093714772084598273548424, 2061118396808653202902996166388514, some 1⟩

/-- Base point of `curve_112r1`. -/
def generator_112r1 : PointJ := ⟨curve_112r1, 188281465057972534892223778713752, 3419875491033170827167861896082688, 4451685225093714776491891542548933, true⟩

/-- Registry singleton `SECP112r1`. -/
def SECP112r1 : Curve := mkCurve "SECP112r1" curve_112r1 generator_112r1 (some [1, 3, 132, 0, 6]) (some "secp112r1")

def curve_112r2 : CurveFp := ⟨4451685225093714772084598273548427, 1970543761890640310119143205433388, 1660538572255285715897238774208265, some 4⟩

/-- Base point of `curve_112r2`. -/
def generator_112r2 : PointJ := ⟨curve_112r2, 1534098225527667214992304222930499, 3525120595527770847583704454622871, 1112921306273428674967732714786891, true⟩

/-- Registry singleton `SECP112r2`. -/
def SECP112r2 : Curve := mkCurve "SECP112r2" curve_112r2 generator_112r2 (some [1, 3, 132, 0, 7]) (some "secp112r2")

def curve_128r1 : CurveFp := ⟨340282366762482138434845932244680310783, 340282366762482138434845932244680310780, 308990863222245658030922601041482374867, some 1⟩

/-- Base point of `curve_128r1`. -/
def generator_128r1 : PointJ := ⟨curve_128r1, 29408993404948928992877151431649155974, 275621562871047521857442314737465260675, 340282366762482138443322565580356624661, true⟩

/-- Registry singleton `SECP128r1`. -/
def SECP128r1 : Curve := mkCurve "SECP128r1" curve_128r1 generator_128r1 (some [1, 3, 132, 0, 28]) (some "secp128r1")

def curve_160r1 : CurveFp := ⟨1461501637330902918203684832716283019653785059327, 1461501637330902918203684832716283019653785059324, 163235791306168110546604919403271579530548345413, some 1⟩

/-- Base point of `curve_160r1`. -/
def generator_160r1 : PointJ := ⟨curve_160r1, 425826231723888350446541592701409065913635568770, 203520114162904107873991457957346892027982641970, 1461501637330902918203687197606826779884643492439, true⟩

/-- Registry singleton `SECP160r1`. -/
def SECP160r1 : Curve := mkCurve "SECP160r1" curve_160r1 generator_160r1 (some [1, 3, 132, 0, 8]) (some "secp160r1")

/-- The registry list `curves`, in its source order. -/
def curves : List Curve :=
  [NIST192p, NIST224p, NIST256p, NIST384p, NIST521p, SECP256k1, BRAINPOOLP160r1, BRAINPOOLP192r1, BRAINPOOLP224r1, BRAINPOOLP256r1, BRAINPOOLP320r1, BRAINPOOLP384r1, BRAINPOOLP512r1, SECP112r1, SECP112r2, SECP128r1, SECP160r1]

/-- Python's `str` rendering of a tuple of integers, e.g. `"(1, 3, 132, 0, 6)"`. -/
def pyTupleStr (l : List Nat) : String :=
  match l with
  | [] => "()"
  | [x] => "(" ++ toString x ++ ",)"
  | x :: xs => "(" ++ toString x ++ String.join (xs.map (fun y => ", " ++ toString y)) ++ ")"

/-- Python's `str` rendering of a list of strings, e.g. `"['NIST192p', 'NIST224p']"`. -/
def pyNameListStr (l : List String) : String :=
  match l with
  | [] => "[]"
  | x :: xs => "['" ++ x ++ "'" ++ String.join (xs.map (fun y => ", '" ++ y ++ "'")) ++ "]"

/-- The fixed tail of the `find_curve` failure message: Python's rendering of
the list of all registered curve names. -/
def namesStr : String := pyNameListStr (curves.map (fun c => c.name))

/-- The oid-dependent front part of the `find_curve` failure message. -/
def unknownCurveMsgPre (oid_curve : List Nat) : String :=
  "I don't know about the curve with oid " ++ pyTupleStr oid_curve ++
    ".I only know about these: "

/-- The `find_curve` failure message: the source's format string
`"I don't know about the curve with oid %s." "I only know about these: %s"`
applied to the query OID and the list of registered names. -/
def unknownCurveMsg (oid_curve : List Nat) : String :=
  unknownCurveMsgPre oid_curve ++ namesStr

/-- `find_curve`: linear scan of the registry comparing each entry's `oid`
field to the query by value; first match wins; otherwise the not-found error. -/
def find_curve (oid_curve : List Nat) : Except DerError Curve :=
  match curves.find? (fun c => c.oid == some oid_curve) with
  | some c => .ok c
  | none => .error (.unknownCurve (unknownCurveMsg oid_curve))

/-- The tail of `Curve.from_der` beyond the outer-sequence header: decode the
fieldID sequence (rejecting the characteristic-two and unrecognized field
types, and trailing bytes after the prime), the curve sequence (ignoring any
bytes after the two octet strings — the optional seed), rebuild the generator
from the base bytes, and canonicalize against the registry. -/
def finishDecode (field_id curveBytes base_bytes : Bytes) (order : Nat)
    (cofactor : Option Nat) : Except DerError Curve :=
  match remove_object field_id with
  | .error e => .error e
  | .ok (field_type, rest) =>
    if field_type = CHARACTERISTIC_TWO_FIELD_OID then
      .error (.unknownCurve "Characteristic 2 curves unsupported")
    else if field_type ≠ PRIME_FIELD_OID then
      .error (.unknownCurve ("Unknown field type: " ++ pyTupleStr field_type))
    else
      match remove_integer rest with
      | .error e => .error e
      | .ok (prime, empty) =>
        if empty ≠ [] then
          .error (.unexpectedDER "Unexpected data after ECParameters.fieldID.Prime-p element")
        else
          match remove_octet_string curveBytes with
          | .error e => .error e
          | .ok (curve_a_bytes, rest3) =>
            match remove_octet_string rest3 with
            | .error e => .error e
            | .ok (curve_b_bytes, _seed) =>
              let curve_fp : CurveFp :=
                ⟨prime, string_to_number curve_a_bytes, string_to_number curve_b_bytes, cofactor⟩
              match pointFromBytes curve_fp base_bytes order with
              | .error e => .error e
              | .ok base =>
                let tmp_curve := mkCurve "unknown" curve_fp base none none
                .ok (match curves.find? (fun i => curveValEq tmp_curve i) with
                     | some i => i
                     | none => tmp_curve)

/-- The explicit-`ECParameters` branch of `Curve.from_der`: version INTEGER
(must be 1), fieldID SEQUENCE, curve SEQUENCE, base OCTET STRING, order
INTEGER, and — only when bytes remain — one cofactor INTEGER, whose own
remainder is ignored. -/
def fromDerSeq (seq : Bytes) : Except DerError Curve :=
  match remove_integer seq with
  | .error e => .error e
  | .ok (version, rest) =>
    if version ≠ 1 then .error (.unexpectedDER "Unknown parameter encoding format")
    else
      match remove_sequence rest with
      | .error e => .error e
      | .ok (field_id, rest2) =>
        match remove_sequence rest2 with
        | .error e => .error e
        | .ok (curveBytes, rest3) =>
          match remove_octet_string rest3 with
          | .error e => .error e
          | .ok (base_bytes, rest4) =>
            match remove_integer rest4 with
            | .error e => .error e
            | .ok (order, rest5) =>
              if rest5 ≠ [] then
                match remove_integer rest5 with
                | .error e => .error e
                | .ok (cofactor, _ignored) =>
                  finishDecode field_id curveBytes base_bytes order (some cofactor)
              else finishDecode field_id curveBytes base_bytes order none

/-- `Curve.from_der`: a non-SEQUENCE input is a bare OID (no trailing bytes
allowed) resolved through `find_curve`; a SEQUENCE input (no trailing bytes
allowed) is the explicit `ECParameters` form. -/
def Curve.from_der (data : Bytes) : Except DerError Curve :=
  if ¬ is_sequence data then
    match remove_object data with
    | .error e => .error e
    | .ok (oid, empty) =>
      if empty ≠ [] then .error (.unexpectedDER "Unexpected data after OID")
      else find_curve oid
  else
    match remove_sequence data with
    | .error e => .error e
    | .ok (seq, empty) =>
      if empty ≠ [] then .error (.unexpectedDER "Unexpected data after ECParameters structure")
      else fromDerSeq seq

/-- `needle` occurs as a contiguous run inside `hay`. -/
def hasSub (needle hay : List Char) : Bool :=
  match hay with
  | [] => needle.isEmpty
  | _ :: t => needle.isPrefixOf hay || hasSub needle t

/-- A small prime-field curve (p = 23, a = b = 1) that is not in the registry;
used to build concrete unregistered inputs. -/
def tinyCurveFp : CurveFp := ⟨23, 1, 1, none⟩

/-- A point on `tinyCurveFp` (x = 3, y = 10 satisfies y² = x³ + x + 1 mod 23),
with declared order 28. -/
def tinyGen : PointJ := ⟨tinyCurveFp, 3, 10, 28, true⟩

/-- A Curve constructed with a present-but-empty `oid` (Python `oid = ()`). -/
def emptyOidCurve : Curve := mkCurve "empty-oid" tinyCurveFp tinyGen (some []) none

/-- A Curve constructed with an absent `oid` (Python `oid = None`). -/
def noOidCurve : Curve := mkCurve "no-oid" tinyCurveFp tinyGen none none

/-- C1: for every curve in the registry list `curves` and every point encoding
in {uncompressed, compressed, hybrid}, decoding the explicit-form DER encoding
returns the registry singleton itself (value equality of the full record with
the registry element, which also captures the canonicalization to the
singleton, since only registry entries carry their names and OIDs). -/
theorem explicit_der_roundtrip :
    ∀ C ∈ curves, ∀ e ∈ (["uncompressed", "compressed", "hybrid"] : List String),
      (C.to_der (some "explicit") e).bind Curve.from_der = Except.ok C := by
  decide

/-- Witness for C1 at `NIST256p` with the compressed encoding. -/
theorem explicit_der_roundtrip_witness :
    NIST256p ∈ curves ∧
    ("compressed" : String) ∈ (["uncompressed", "compressed", "hybrid"] : List String) ∧
    (NIST256p.to_der (some "explicit") "compressed").bind Curve.from_der = Except.ok NIST256p :=
  ⟨by decide, by decide, explicit_der_roundtrip NIST256p (by decide) "compressed" (by decide)⟩

/-- C2: every registry curve has an OID, and decoding its named-curve DER
encoding returns the registry singleton itself. -/
theorem named_der_roundtrip :
    ∀ C ∈ curves, C.oid.isSome = true ∧
      (C.to_der (some "named_curve") "uncompressed").bind Curve.from_der = Except.ok C := by
  decide

/-- Witness for C2 at `SECP256k1`. -/
theorem named_der_roundtrip_witness :
    SECP256k1 ∈ curves ∧ SECP256k1.oid.isSome = true ∧
    (SECP256k1.to_der (some "named_curve") "uncompressed").bind Curve.from_der =
      Except.ok SECP256k1 :=
  ⟨by decide, (named_der_roundtrip SECP256k1 (by decide)).1,
    (named_der_roundtrip SECP256k1 (by decide)).2⟩

/-- C4: once `from_der` is in the explicit-`ECParameters` branch, a leading
version INTEGER different from 1 always fails with the structural-parse
(`UnexpectedDER` / MalformedEncoding) error "Unknown parameter encoding
format". -/
theorem version_rejection :
    ∀ (data seqB : Bytes) (ver : Nat) (rest : Bytes),
      is_sequence data = true →
      remove_sequence data = .ok (seqB, []) →
      remove_integer seqB = .ok (ver, rest) →
      ver ≠ 1 →
      Curve.from_der data = .error (.unexpectedDER "Unknown parameter encoding format") := by
  intro data seqB ver rest hseq hrem hint hv
  simp [Curve.from_der, hseq, hrem, fromDerSeq, hint, hv]

/-- Witness for C4: a buffer whose version INTEGER is 2 is rejected. -/
theorem version_rejection_witness :
    is_sequence [48, 3, 2, 1, 2] = true ∧
    remove_sequence [48, 3, 2, 1, 2] = .ok ([2, 1, 2], []) ∧
    remove_integer [2, 1, 2] = .ok (2, []) ∧ (2 : Nat) ≠ 1 ∧
    Curve.from_der [48, 3, 2, 1, 2] =
      .error (.unexpectedDER "Unknown parameter encoding format") :=
  ⟨by decide, by decide, by decide, by decide,
    version_rejection [48, 3, 2, 1, 2] [2, 1, 2] 2 [] (by decide) (by decide) (by decide)
      (by decide)⟩

/-- C7 counterexample: a Curve whose `oid` is the present-but-empty tuple has
a present `oid` (not `None`), yet `to_der("named_curve")` raises instead of
returning the encoded OID — the constructor's and encoder's guard is Python
truthiness, not presence. -/
theorem to_der_named_cex :
    emptyOidCurve.oid = some [] ∧ emptyOidCurve.oid ≠ none ∧
    Curve.to_der emptyOidCurve (some "named_curve") "uncompressed" =
      .error (.unknownCurve
        "Can't encode curve using named_curve encoding without associated curve OID") ∧
    Curve.to_der emptyOidCurve (some "named_curve") "uncompressed" ≠
      .ok (encode_oid []) := by
  refine ⟨rfl, by decide, by decide, by decide⟩

/-- C7 amended: `to_der("named_curve")` raises the UnknownCurve error exactly
when `oid` is not truthy (absent or empty), and returns the DER encoding of
the OID alone whenever `oid` is present and nonempty. -/
theorem to_der_named_amended :
    (∀ (c : Curve) (pe : String), oidTruthy c.oid = false →
      Curve.to_der c (some "named_curve") pe =
        .error (.unknownCurve
          "Can't encode curve using named_curve encoding without associated curve OID")) ∧
    (∀ (c : Curve) (pe : String), oidTruthy c.oid = true →
      Curve.to_der c (some "named_curve") pe = .ok (encode_oid (c.oid.getD []))) := by
  constructor <;> intro c pe h <;> simp [Curve.to_der, h]

/-- Witness for the amended C7, at a Curve with absent `oid` and at `NIST192p`. -/
theorem to_der_named_amended_witness :
    oidTruthy noOidCurve.oid = false ∧
    Curve.to_der noOidCurve (some "named_curve") "uncompressed" =
      .error (.unknownCurve
        "Can't encode curve using named_curve encoding without associated curve OID") ∧
    oidTruthy NIST192p.oid = true ∧
    Curve.to_der NIST192p (some "named_curve") "uncompressed" =
      .ok (encode_oid (NIST192p.oid.getD [])) :=
  ⟨by decide, to_der_named_amended.1 noOidCurve "uncompressed" (by decide),
    by decide, to_der_named_amended.2 NIST192p "uncompressed" (by decide)⟩

/-- C9 counterexample: a Curve constructed with the present-but-empty `oid`
has a present `oid` but no `encoded_oid` — the constructor guards the
precomputation with Python truthiness (`if oid:`), not presence. -/
theorem encoded_oid_cex :
    emptyOidCurve.oid ≠ none ∧ emptyOidCurve.encoded_oid = none := by
  exact ⟨by decide, rfl⟩

/-- C9 amended: for every constructed Curve, `encoded_oid` is present exactly
when the `oid` argument is truthy (present and nonempty); when it is,
`encoded_oid` holds the DER encoding of `oid`, and an absent `oid` gives no
`encoded_oid`. -/
theorem encoded_oid_amended :
    ∀ (name : String) (cf : CurveFp) (g : PointJ) (oid : Option (List Nat))
      (osl : Option String),
      ((mkCurve name cf g oid osl).encoded_oid.isSome = true ↔ oidTruthy oid = true) ∧
      (oidTruthy oid = true →
        (mkCurve name cf g oid osl).encoded_oid = some (encode_oid (oid.getD []))) ∧
      (oid = none → (mkCurve name cf g oid osl).encoded_oid = none) := by
  intro name cf g oid osl
  refine ⟨?_, ?_, ?_⟩
  · cases h : oidTruthy oid <;> simp [mkCurve, h]
  · intro h; simp [mkCurve, h]
  · intro h; subst h; simp [mkCurve, oidTruthy]

/-- Witness for the amended C9 at a truthy oid. -/
theorem encoded_oid_amended_witness :
    oidTruthy (some [1, 2, 3]) = true ∧
    (mkCurve "w" tinyCurveFp tinyGen (some [1, 2, 3]) none).encoded_oid =
      some (encode_oid ((some [1, 2, 3] : Option (List Nat)).getD [])) :=
  ⟨by decide,
    (encoded_oid_amended "w" tinyCurveFp tinyGen (some [1, 2, 3]) none).2.1 (by decide)⟩

/-- When an explicit-form input parses through the outer header (sequence with
no trailing data, version 1, fieldID, curve, base, order, and the optional
cofactor), `Curve.from_der` computes `finishDecode` on the parsed pieces. -/
theorem fromDer_reaches_finish
    (data seqB r1 field_id r2 curveB r3 baseB r4 : Bytes) (order : Nat) (r5 : Bytes)
    (cof : Option Nat)
    (hIs : is_sequence data = true)
    (hSeq : remove_sequence data = .ok (seqB, []))
    (hVer : remove_integer seqB = .ok (1, r1))
    (hFid : remove_sequence r1 = .ok (field_id, r2))
    (hCur : remove_sequence r2 = .ok (curveB, r3))
    (hBase : remove_octet_string r3 = .ok (baseB, r4))
    (hOrd : remove_integer r4 = .ok (order, r5))
    (hCof : (r5 = [] ∧ cof = none) ∨
      (∃ junk cv, remove_integer r5 = .ok (cv, junk) ∧ r5 ≠ [] ∧ cof = some cv)) :
    Curve.from_der data = finishDecode field_id curveB baseB order cof := by
  rcases hCof with ⟨h5, hc⟩ | ⟨junk, cv, hri, h5, hc⟩
  · subst h5; subst hc
    simp [Curve.from_der, hIs, hSeq, fromDerSeq, hVer, hFid, hCur, hBase, hOrd]
  · subst hc
    simp [Curve.from_der, hIs, hSeq, fromDerSeq, hVer, hFid, hCur, hBase, hOrd, h5, hri]

/-- C10: when bytes remain inside the ECParameters SEQUENCE after the order
INTEGER, `from_der` parses exactly one cofactor INTEGER from them and the
remainder `junk` left after that INTEGER does not influence the result at
all (the rest of the decode, `finishDecode`, never sees it) — in particular
no error is raised on account of those bytes. -/
theorem cofactor_trailing_ignored :
    ∀ (data seqB r1 field_id r2 curveB r3 baseB r4 : Bytes) (order : Nat)
      (r5 : Bytes) (cv : Nat) (junk : Bytes),
      is_sequence data = true →
      remove_sequence data = .ok (seqB, []) →
      remove_integer seqB = .ok (1, r1) →
      remove_sequence r1 = .ok (field_id, r2) →
      remove_sequence r2 = .ok (curveB, r3) →
      remove_octet_string r3 = .ok (baseB, r4) →
      remove_integer r4 = .ok (order, r5) →
      r5 ≠ [] →
      remove_integer r5 = .ok (cv, junk) →
      Curve.from_der data = finishDecode field_id curveB baseB order (some cv) := by
  intro data seqB r1 field_id r2 curveB r3 baseB r4 order r5 cv junk hIs hSeq hVer hFid hCur
    hBase hOrd h5 hri
  exact fromDer_reaches_finish data seqB r1 field_id r2 curveB r3 baseB r4
    order r5 (some cv) hIs hSeq hVer hFid hCur hBase hOrd (Or.inr ⟨junk, cv, hri, h5, rfl⟩)

/-- The generic unknown-field-type message never coincides with the
characteristic-two message (their first characters differ). -/
theorem unknown_field_type_msg_ne (ft : List Nat) :
    "Unknown field type: " ++ pyTupleStr ft ≠ "Characteristic 2 curves unsupported" := by
  intro h
  have hU : ("Unknown field type: " ++ pyTupleStr ft).data.head? = some 'U' := rfl
  rw [h] at hU
  exact absurd hU (by decide)

/-- C5: for an explicit-form input reaching the fieldID decode, a field-type
OID equal to the characteristic-two OID fails with the dedicated
"unsupported" UnknownCurve error, and any other field-type OID different
from the prime-field OID fails with the UnknownCurve error naming the
offending OID; the two messages are always distinct. -/
theorem field_type_rejection :
    (∀ (data seqB r1 field_id r2 curveB r3 baseB r4 : Bytes) (order : Nat)
      (r5 : Bytes) (cof : Option Nat) (ftRest : Bytes),
      is_sequence data = true →
      remove_sequence data = .ok (seqB, []) →
      remove_integer seqB = .ok (1, r1) →
      remove_sequence r1 = .ok (field_id, r2) →
      remove_sequence r2 = .ok (curveB, r3) →
      remove_octet_string r3 = .ok (baseB, r4) →
      remove_integer r4 = .ok (order, r5) →
      ((r5 = [] ∧ cof = none) ∨
        (∃ junk cv, remove_integer r5 = .ok (cv, junk) ∧ r5 ≠ [] ∧ cof = some cv)) →
      remove_object field_id = .ok (CHARACTERISTIC_TWO_FIELD_OID, ftRest) →
      Curve.from_der data = .error (.unknownCurve "Characteristic 2 curves unsupported")) ∧
    (∀ (data seqB r1 field_id r2 curveB r3 baseB r4 : Bytes) (order : Nat)
      (r5 : Bytes) (cof : Option Nat) (ft : List Nat) (ftRest : Bytes),
      is_sequence data = true →
      remove_sequence data = .ok (seqB, []) →
      remove_integer seqB = .ok (1, r1) →
      remove_sequence r1 = .ok (field_id, r2) →
      remove_sequence r2 = .ok (curveB, r3) →
      remove_octet_string r3 = .ok (baseB, r4) →
      remove_integer r4 = .ok (order, r5) →
      ((r5 = [] ∧ cof = none) ∨
        (∃ junk cv, remove_integer r5 = .ok (cv, junk) ∧ r5 ≠ [] ∧ cof = some cv)) →
      remove_object field_id = .ok (ft, ftRest) →
      ft ≠ CHARACTERISTIC_TWO_FIELD_OID →
      ft ≠ PRIME_FIELD_OID →
      Curve.from_der data =
        .error (.unknownCurve ("Unknown field type: " ++ pyTupleStr ft)) ∧
      ("Unknown field type: " ++ pyTupleStr ft : String) ≠
        "Characteristic 2 curves unsupported") := by
  constructor
  · intro data seqB r1 field_id r2 curveB r3 baseB r4 order r5 cof ftRest hIs hSeq hVer hFid
      hCur hBase hOrd hCof hObj
    rw [fromDer_reaches_finish data seqB r1 field_id r2 curveB r3 baseB r4 order r5 cof hIs
      hSeq hVer hFid hCur hBase hOrd hCof]
    simp [finishDecode, hObj]
  · intro data seqB r1 field_id r2 curveB r3 baseB r4 order r5 cof ft ftRest hIs hSeq hVer
      hFid hCur hBase hOrd hCof hObj hne2 hnep
    refine ⟨?_, unknown_field_type_msg_ne ft⟩
    rw [fromDer_reaches_finish data seqB r1 field_id r2 curveB r3 baseB r4 order r5 cof hIs
      hSeq hVer hFid hCur hBase hOrd hCof]
    simp [finishDecode, hObj, hne2, hnep]

/-- C6: each of the three whole-buffer checkpoints independently rejects
trailing bytes with the structural-parse (`UnexpectedDER` / MalformedEncoding)
error: after a bare OID in OID-only input, after the outer ECParameters
SEQUENCE, and after the prime INTEGER inside the fieldID SEQUENCE. -/
theorem trailing_data_rejection :
    (∀ (data : Bytes) (oid : List Nat) (extra : Bytes),
      is_sequence data = false →
      remove_object data = .ok (oid, extra) →
      extra ≠ [] →
      Curve.from_der data = .error (.unexpectedDER "Unexpected data after OID")) ∧
    (∀ (data seqB extra : Bytes),
      is_sequence data = true →
      remove_sequence data = .ok (seqB, extra) →
      extra ≠ [] →
      Curve.from_der data =
        .error (.unexpectedDER "Unexpected data after ECParameters structure")) ∧
    (∀ (data seqB r1 field_id r2 curveB r3 baseB r4 : Bytes) (order : Nat)
      (r5 : Bytes) (cof : Option Nat) (ftRest : Bytes) (prime : Nat) (extra : Bytes),
      is_sequence data = true →
      remove_sequence data = .ok (seqB, []) →
      remove_integer seqB = .ok (1, r1) →
      remove_sequence r1 = .ok (field_id, r2) →
      remove_sequence r2 = .ok (curveB, r3) →
      remove_octet_string r3 = .ok (baseB, r4) →
      remove_integer r4 = .ok (order, r5) →
      ((r5 = [] ∧ cof = none) ∨
        (∃ junk cv, remove_integer r5 = .ok (cv, junk) ∧ r5 ≠ [] ∧ cof = some cv)) →
      remove_object field_id = .ok (PRIME_FIELD_OID, ftRest) →
      remove_integer ftRest = .ok (prime, extra) →
      extra ≠ [] →
      Curve.from_der data =
        .error (.unexpectedDER "Unexpected data after ECParameters.fieldID.Prime-p element")) := by
  refine ⟨?_, ?_, ?_⟩
  · intro data oid extra hIs hObj hex
    simp [Curve.from_der, hIs, hObj, hex]
  · intro data seqB extra hIs hSeq hex
    simp [Curve.from_der, hIs, hSeq, hex]
  · intro data seqB r1 field_id r2 curveB r3 baseB r4 order r5 cof ftRest prime extra hIs
      hSeq hVer hFid hCur hBase hOrd hCof hObj hPrime hex
    rw [fromDer_reaches_finish data seqB r1 field_id r2 curveB r3 baseB r4 order r5 cof hIs
      hSeq hVer hFid hCur hBase hOrd hCof]
    simp [finishDecode, hObj, hPrime, hex, PRIME_FIELD_OID, CHARACTERISTIC_TWO_FIELD_OID]

/-- C8: an explicit-form input that decodes successfully and whose
curve/generator pair matches no registry entry yields the transient Curve
itself: name `"unknown"`, `oid` absent, curve math and generator exactly the
parsed ones, and the result differs from every registry singleton. -/
theorem unregistered_decode :
    ∀ (data seqB r1 field_id r2 curveB r3 baseB r4 : Bytes) (order : Nat)
      (r5 : Bytes) (cof : Option Nat) (ftRest : Bytes) (prime : Nat)
      (aBytes bRest bBytes seed : Bytes) (pt : PointJ),
      is_sequence data = true →
      remove_sequence data = .ok (seqB, []) →
      remove_integer seqB = .ok (1, r1) →
      remove_sequence r1 = .ok (field_id, r2) →
      remove_sequence r2 = .ok (curveB, r3) →
      remove_octet_string r3 = .ok (baseB, r4) →
      remove_integer r4 = .ok (order, r5) →
      ((r5 = [] ∧ cof = none) ∨
        (∃ junk cv, remove_integer r5 = .ok (cv, junk) ∧ r5 ≠ [] ∧ cof = some cv)) →
      remove_object field_id = .ok (PRIME_FIELD_OID, ftRest) →
      remove_integer ftRest = .ok (prime, []) →
      remove_octet_string curveB = .ok (aBytes, bRest) →
      remove_octet_string bRest = .ok (bBytes, seed) →
      pointFromBytes ⟨prime, string_to_number aBytes, string_to_number bBytes, cof⟩
        baseB order = .ok pt →
      (∀ C ∈ curves,
        curveValEq
          (mkCurve "unknown"
            ⟨prime, string_to_number aBytes, string_to_number bBytes, cof⟩ pt none none)
          C = false) →
      Curve.from_der data =
        .ok (mkCurve "unknown"
          ⟨prime, string_to_number aBytes, string_to_number bBytes, cof⟩ pt none none) ∧
      (mkCurve "unknown"
        ⟨prime, string_to_number aBytes, string_to_number bBytes, cof⟩ pt none none).name =
        "unknown" ∧
      (mkCurve "unknown"
        ⟨prime, string_to_number aBytes, string_to_number bBytes, cof⟩ pt none none).oid =
        none ∧
      ∀ C ∈ curves,
        mkCurve "unknown"
          ⟨prime, string_to_number aBytes, string_to_number bBytes, cof⟩ pt none none ≠ C := by
  intro data seqB r1 field_id r2 curveB r3 baseB r4 order r5 cof ftRest prime aBytes bRest
    bBytes seed pt hIs hSeq hVer hFid hCur hBase hOrd hCof hObj hPrime hA hB hPt hNo
  have hfind :
      curves.find?
        (fun i =>
          curveValEq
            (mkCurve "unknown"
              ⟨prime, string_to_number aBytes, string_to_number bBytes, cof⟩ pt none none)
            i) = none := by
    rw [List.find?_eq_none]
    intro x hx
    simp [hNo x hx]
  refine ⟨?_, rfl, rfl, ?_⟩
  · rw [fromDer_reaches_finish data seqB r1 field_id r2 curveB r3 baseB r4 order r5 cof hIs
      hSeq hVer hFid hCur hBase hOrd hCof]
    simp [finishDecode, hObj, hPrime, hA, hB, hPt, hfind, PRIME_FIELD_OID,
      CHARACTERISTIC_TWO_FIELD_OID]
  · intro C hC heq
    have hnames : ∀ D ∈ curves, ¬ D.name = "unknown" := by decide
    apply hnames C hC
    rw [← heq]
    rfl

/-- A substring occurrence survives prepending on the left. -/
theorem hasSub_append_left :
    ∀ (l : List Char) {n h : List Char}, hasSub n h = true → hasSub n (l ++ h) = true
  | [], _, _, hs => hs
  | a :: t, n, h, hs => by
    have ih := hasSub_append_left t hs
    simp only [List.cons_append, hasSub, Bool.or_eq_true]
    exact Or.inr ih

/-- C3: `find_curve` returns, for each registry entry's own OID, that entry
itself (the registry scan in its fixed order, with all registry OIDs
pairwise distinct, finds it first); and for a query OID carried by no
registry entry it fails with the UnknownCurve error whose message contains
the name of every registered curve. -/
theorem find_curve_lookup :
    (∀ C ∈ curves, find_curve (C.oid.getD []) = .ok C) ∧
    (∀ o : List Nat, (∀ C ∈ curves, C.oid ≠ some o) →
      find_curve o = .error (.unknownCurve (unknownCurveMsg o)) ∧
      ∀ C ∈ curves, hasSub C.name.data (unknownCurveMsg o).data = true) := by
  constructor
  · decide
  · intro o h
    have hnone : curves.find? (fun c => c.oid == some o) = none := by
      rw [List.find?_eq_none]
      intro c hc
      simpa using h c hc
    refine ⟨by simp [find_curve, hnone], ?_⟩
    intro C hC
    have htail : ∀ D ∈ curves, hasSub D.name.data namesStr.data = true := by decide
    have hdata : (unknownCurveMsg o).data = (unknownCurveMsgPre o).data ++ namesStr.data :=
      rfl
    rw [hdata]
    exact hasSub_append_left _ (htail C hC)

/-- Witness for C3 at `NIST192p`'s OID and at the absent OID `(1, 2, 3)`. -/
theorem find_curve_lookup_witness :
    (NIST192p ∈ curves ∧ find_curve (NIST192p.oid.getD []) = .ok NIST192p) ∧
    ((∀ C ∈ curves, C.oid ≠ some [1, 2, 3]) ∧
      find_curve [1, 2, 3] = .error (.unknownCurve (unknownCurveMsg [1, 2, 3]))) :=
  ⟨⟨by decide, find_curve_lookup.1 NIST192p (by decide)⟩,
    ⟨by decide, (find_curve_lookup.2 [1, 2, 3] (by decide)).1⟩⟩

/-- OID-only input with a trailing byte, for the C6 witness. -/
def c6aBuf : Bytes := [6, 8, 42, 134, 72, 206, 61, 3, 1, 1, 0]

/-- SEQUENCE input with a trailing byte, for the C6 witness. -/
def c6bBuf : Bytes := [48, 3, 2, 1, 1, 0]

/-- Explicit-form input with an extra byte after the prime inside the fieldID
SEQUENCE, for the C6 witness. -/
def c6cBuf : Bytes :=
  [48, 34, 2, 1, 1, 48, 13, 6, 7, 42, 134, 72, 206, 61, 1, 1, 2, 1, 23, 0,
   48, 6, 4, 1, 1, 4, 1, 1, 4, 3, 4, 3, 10, 2, 1, 28]

/-- Witness for C6: the three checkpoints each reject concrete buffers with
one trailing byte. -/
theorem trailing_data_rejection_witness :
    (is_sequence c6aBuf = false ∧
      remove_object c6aBuf = .ok ([1, 2, 840, 10045, 3, 1, 1], [0]) ∧
      Curve.from_der c6aBuf = .error (.unexpectedDER "Unexpected data after OID")) ∧
    (is_sequence c6bBuf = true ∧ remove_sequence c6bBuf = .ok ([2, 1, 1], [0]) ∧
      Curve.from_der c6bBuf =
        .error (.unexpectedDER "Unexpected data after ECParameters structure")) ∧
    (remove_integer [2, 1, 23, 0] = .ok (23, [0]) ∧
      Curve.from_der c6cBuf =
        .error (.unexpectedDER "Unexpected data after ECParameters.fieldID.Prime-p element")) :=
  ⟨⟨by decide, by decide,
      trailing_data_rejection.1 c6aBuf [1, 2, 840, 10045, 3, 1, 1] [0] (by decide) (by decide)
        (by decide)⟩,
    ⟨by decide, by decide,
      trailing_data_rejection.2.1 c6bBuf [2, 1, 1] [0] (by decide) (by decide) (by decide)⟩,
    ⟨by decide,
      trailing_data_rejection.2.2 c6cBuf
        [2, 1, 1, 48, 13, 6, 7, 42, 134, 72, 206, 61, 1, 1, 2, 1, 23, 0, 48, 6, 4, 1, 1, 4,
          1, 1, 4, 3, 4, 3, 10, 2, 1, 28]
        [48, 13, 6, 7, 42, 134, 72, 206, 61, 1, 1, 2, 1, 23, 0, 48, 6, 4, 1, 1, 4, 1, 1, 4,
          3, 4, 3, 10, 2, 1, 28]
        [6, 7, 42, 134, 72, 206, 61, 1, 1, 2, 1, 23, 0]
        [48, 6, 4, 1, 1, 4, 1, 1, 4, 3, 4, 3, 10, 2, 1, 28]
        [4, 1, 1, 4, 1, 1]
        [4, 3, 4, 3, 10, 2, 1, 28]
        [4, 3, 10]
        [2, 1, 28]
        28 [] none
        [2, 1, 23, 0] 23 [0]
        (by decide) (by decide) (by decide) (by decide) (by decide) (by decide) (by decide)
        (Or.inl ⟨rfl, rfl⟩) (by decide) (by decide) (by decide)⟩⟩

/-- Explicit-form input whose fieldID carries the characteristic-two OID, for
the C5 witness. -/
def c5aBuf : Bytes :=
  [48, 33, 2, 1, 1, 48, 12, 6, 7, 42, 134, 72, 206, 61, 1, 2, 2, 1, 23,
   48, 6, 4, 1, 1, 4, 1, 1, 4, 3, 4, 3, 10, 2, 1, 28]

/-- Explicit-form input whose fieldID carries the unrecognized OID (1, 2, 3),
for the C5 witness. -/
def c5bBuf : Bytes :=
  [48, 28, 2, 1, 1, 48, 7, 6, 2, 42, 3, 2, 1, 23,
   48, 6, 4, 1, 1, 4, 1, 1, 4, 3, 4, 3, 10, 2, 1, 28]

/-- Witness for C5: the characteristic-two OID and an arbitrary unrecognized
OID are each rejected, with distinct messages. -/
theorem field_type_rejection_witness :
    (remove_object [6, 7, 42, 134, 72, 206, 61, 1, 2, 2, 1, 23] =
      .ok (CHARACTERISTIC_TWO_FIELD_OID, [2, 1, 23]) ∧
      Curve.from_der c5aBuf =
        .error (.unknownCurve "Characteristic 2 curves unsupported")) ∧
    (remove_object [6, 2, 42, 3, 2, 1, 23] = .ok ([1, 2, 3], [2, 1, 23]) ∧
      Curve.from_der c5bBuf =
        .error (.unknownCurve ("Unknown field type: " ++ pyTupleStr [1, 2, 3])) ∧
      ("Unknown field type: " ++ pyTupleStr [1, 2, 3] : String) ≠
        "Characteristic 2 curves unsupported") :=
  ⟨⟨by decide,
      field_type_rejection.1 c5aBuf
        [2, 1, 1, 48, 12, 6, 7, 42, 134, 72, 206, 61, 1, 2, 2, 1, 23, 48, 6, 4, 1, 1, 4, 1,
          1, 4, 3, 4, 3, 10, 2, 1, 28]
        [48, 12, 6, 7, 42, 134, 72, 206, 61, 1, 2, 2, 1, 23, 48, 6, 4, 1, 1, 4, 1, 1, 4, 3,
          4, 3, 10, 2, 1, 28]
        [6, 7, 42, 134, 72, 206, 61, 1, 2, 2, 1, 23]
        [48, 6, 4, 1, 1, 4, 1, 1, 4, 3, 4, 3, 10, 2, 1, 28]
        [4, 1, 1, 4, 1, 1]
        [4, 3, 4, 3, 10, 2, 1, 28]
        [4, 3, 10]
        [2, 1, 28]
        28 [] none [2, 1, 23]
        (by decide) (by decide) (by decide) (by decide) (by decide) (by decide) (by decide)
        (Or.inl ⟨rfl, rfl⟩) (by decide)⟩,
    ⟨by decide,
      field_type_rejection.2 c5bBuf
        [2, 1, 1, 48, 7, 6, 2, 42, 3, 2, 1, 23, 48, 6, 4, 1, 1, 4, 1, 1, 4, 3, 4, 3, 10, 2,
          1, 28]
        [48, 7, 6, 2, 42, 3, 2, 1, 23, 48, 6, 4, 1, 1, 4, 1, 1, 4, 3, 4, 3, 10, 2, 1, 28]
        [6, 2, 42, 3, 2, 1, 23]
        [48, 6, 4, 1, 1, 4, 1, 1, 4, 3, 4, 3, 10, 2, 1, 28]
        [4, 1, 1, 4, 1, 1]
        [4, 3, 4, 3, 10, 2, 1, 28]
        [4, 3, 10]
        [2, 1, 28]
        28 [] none [1, 2, 3] [2, 1, 23]
        (by decide) (by decide) (by decide) (by decide) (by decide) (by decide) (by decide)
        (Or.inl ⟨rfl, rfl⟩) (by decide) (by decide) (by decide)⟩⟩

/-- A valid explicit-form encoding of the unregistered tiny curve (p = 23),
for the C8 witness. -/
def c8Buf : Bytes :=
  [48, 33, 2, 1, 1, 48, 12, 6, 7, 42, 134, 72, 206, 61, 1, 1, 2, 1, 23,
   48, 6, 4, 1, 1, 4, 1, 1, 4, 3, 4, 3, 10, 2, 1, 28]

/-- Witness for C8: decoding the tiny-curve buffer yields the transient
unregistered Curve. -/
theorem unregistered_decode_witness :
    (∀ C ∈ curves,
      curveValEq (mkCurve "unknown" ⟨23, string_to_number [1], string_to_number [1], none⟩
        ⟨⟨23, 1, 1, none⟩, 3, 10, 28, true⟩ none none) C = false) ∧
    Curve.from_der c8Buf =
      .ok (mkCurve "unknown" ⟨23, string_to_number [1], string_to_number [1], none⟩
        ⟨⟨23, 1, 1, none⟩, 3, 10, 28, true⟩ none none) ∧
    (mkCurve "unknown" ⟨23, string_to_number [1], string_to_number [1], none⟩
      ⟨⟨23, 1, 1, none⟩, 3, 10, 28, true⟩ none none).name = "unknown" ∧
    (mkCurve "unknown" ⟨23, string_to_number [1], string_to_number [1], none⟩
      ⟨⟨23, 1, 1, none⟩, 3, 10, 28, true⟩ none none).oid = none ∧
    ∀ C ∈ curves,
      mkCurve "unknown" ⟨23, string_to_number [1], string_to_number [1], none⟩
        ⟨⟨23, 1, 1, none⟩, 3, 10, 28, true⟩ none none ≠ C :=
  ⟨by decide,
    unregistered_decode c8Buf
      [2, 1, 1, 48, 12, 6, 7, 42, 134, 72, 206, 61, 1, 1, 2, 1, 23, 48, 6, 4, 1, 1, 4, 1, 1,
        4, 3, 4, 3, 10, 2, 1, 28]
      [48, 12, 6, 7, 42, 134, 72, 206, 61, 1, 1, 2, 1, 23, 48, 6, 4, 1, 1, 4, 1, 1, 4, 3, 4,
        3, 10, 2, 1, 28]
      [6, 7, 42, 134, 72, 206, 61, 1, 1, 2, 1, 23]
      [48, 6, 4, 1, 1, 4, 1, 1, 4, 3, 4, 3, 10, 2, 1, 28]
      [4, 1, 1, 4, 1, 1]
      [4, 3, 4, 3, 10, 2, 1, 28]
      [4, 3, 10]
      [2, 1, 28]
      28 [] none [2, 1, 23] 23 [1] [4, 1, 1] [1] []
      ⟨⟨23, 1, 1, none⟩, 3, 10, 28, true⟩
      (by decide) (by decide) (by decide) (by decide) (by decide) (by decide) (by decide)
      (Or.inl ⟨rfl, rfl⟩) (by decide) (by decide) (by decide) (by decide) (by decide)
      (by decide)⟩

/-- The tiny-curve explicit encoding followed by a cofactor INTEGER and one
junk byte inside the outer SEQUENCE, for the C10 witness. -/
def c10Buf : Bytes :=
  [48, 37, 2, 1, 1, 48, 12, 6, 7, 42, 134, 72, 206, 61, 1, 1, 2, 1, 23,
   48, 6, 4, 1, 1, 4, 1, 1, 4, 3, 4, 3, 10, 2, 1, 28, 2, 1, 1, 255]

/-- Witness for C10: the byte 255 left after the cofactor INTEGER is ignored. -/
theorem cofactor_trailing_ignored_witness :
    ([2, 1, 1, 255] : Bytes) ≠ [] ∧
    remove_integer [2, 1, 1, 255] = .ok (1, [255]) ∧
    Curve.from_der c10Buf =
      finishDecode [6, 7, 42, 134, 72, 206, 61, 1, 1, 2, 1, 23] [4, 1, 1, 4, 1, 1]
        [4, 3, 10] 28 (some 1) :=
  ⟨by decide, by decide,
    cofactor_trailing_ignored c10Buf
      [2, 1, 1, 48, 12, 6, 7, 42, 134, 72, 206, 61, 1, 1, 2, 1, 23, 48, 6, 4, 1, 1, 4, 1, 1,
        4, 3, 4, 3, 10, 2, 1, 28, 2, 1, 1, 255]
      [48, 12, 6, 7, 42, 134, 72, 206, 61, 1, 1, 2, 1, 23, 48, 6, 4, 1, 1, 4, 1, 1, 4, 3, 4,
        3, 10, 2, 1, 28, 2, 1, 1, 255]
      [6, 7, 42, 134, 72, 206, 61, 1, 1, 2, 1, 23]
      [48, 6, 4, 1, 1, 4, 1, 1, 4, 3, 4, 3, 10, 2, 1, 28, 2, 1, 1, 255]
      [4, 1, 1, 4, 1, 1]
      [4, 3, 4, 3, 10, 2, 1, 28, 2, 1, 1, 255]
      [4, 3, 10]
      [2, 1, 28, 2, 1, 1, 255]
      28 [2, 1, 1, 255] 1 [255]
      (by decide) (by decide) (by decide) (by decide) (by decide) (by decide) (by decide)
      (by decide) (by decide)⟩
